import Mathlib

/-!
Verification development for the rtos repository's message bus
(`src/include/MsgBus.hpp`) and message scheduler (`src/MsgSchedulerTask.hpp`).

The C++ code is shallowly embedded: machine integers become `Nat` with
explicit `% 2 ^ 32` where `uint32_t` overflow matters, pointers become
numeric identities, `std::function` callbacks become `Option`-wrapped Lean
functions, and the subscriber vector / pending `std::list` become Lean lists.
The receiver capability `IRtosMsgReceiver::send(const void*, size_t)`
(`src/include/RtosMsgBufferTask.hpp`, also `src/RtosMsgBufferTask.hpp`)
returns a C++ `bool`; an environment function of type `Nat → Nat → Bool`
stands for it, indexed by receiver identity and message length.
-/

namespace Rtos

/-- Modulus for `uint32_t` arithmetic. -/
def M32 : Nat := 2 ^ 32

/-- `TopicBase::fnv1a32` (MsgBus.hpp lines 88-97): 32-bit FNV-1a over the
name bytes, offset basis `0x811C9DC5`, prime `0x01000193`, with `uint32_t`
wrap-around on the multiply.  A name is its list of byte values. -/
def fnv1a32 (s : List Nat) : Nat :=
  s.foldl (fun h c => ((h ^^^ (c % 256)) * 0x01000193) % M32) 0x811C9DC5

/-- `TopicBase::INVALID_TOPIC_ID` (MsgBus.hpp line 86). -/
def INVALID_TOPIC_ID : Nat := 0

/-- `MsgBus::Result` (MsgBus.hpp lines 280-292). -/
inductive Result where
  | OK
  | ZERO_TOPIC
  | TOPIC_EXISTS
  | TOPIC_NOT_FOUND
  | TYPE_MISMATCH
  | SUB_EXISTS
  | SUB_NOT_FOUND
  | WRITE_NOT_SUPPORTED
  | WRITE_FAILED
  | JSON_PARSE_FAILED
deriving DecidableEq, Repr

/-- `QMsg<uint32_t, T>` (QMsg.hpp): the envelope a topic stores and sends.
`cmd` is the `uint32_t` command field, `data` an opaque encoding of the
payload value of type `T`. -/
structure QMsg where
  cmd : Nat
  data : Nat
deriving DecidableEq, Repr

/-- `QMsg<uint32_t, T>::size()` = `sizeof(uint32_t) + sizeof(T)` (QMsg.hpp
line 20), given `payloadSize = sizeof(T)`. -/
def QMsgSize (payloadSize : Nat) : Nat := 4 + payloadSize

/-- `TopicBase::Sub` (MsgBus.hpp lines 126-130): receiver identity (the
`IRtosMsgReceiver*`) and the `uint32_t` message id. -/
structure Sub where
  q : Nat
  id : Nat
deriving DecidableEq, Repr

/-- One call of `IRtosMsgReceiver::send` performed by `Topic::notify`:
receiver, command field, payload encoding, and length argument. -/
structure SendEvent where
  recv : Nat
  cmd : Nat
  data : Nat
  len : Nat
deriving DecidableEq, Repr

/-- `Topic<T>` (MsgBus.hpp lines 144-264).  `tyId` is the per-type token
`getTypeId<T>()` (one unique static address per distinct `T`,
MsgBus.hpp lines 22-28); `payloadSize` is `sizeof(T)`.  The write callback
is user code receiving the value; it reports success and may update the
topic's stored data (it owns the topic).  The to-json callback maps the
stored data and the output-buffer size to the `int` that
`Topic<T>::toJson(std::span<char>)` forwards (bytes written, or `-1` on
failure, as in `Topic::toJsonFloat`).  The Metrics unit/format metadata and
the from-json callback play no part in the verified operations and are
omitted. -/
structure Topic where
  name : List Nat
  tyId : Nat
  msg : QMsg
  payloadSize : Nat
  subscribers : List Sub
  writeCb : Option (Nat → Nat → Bool × Nat)
  toJsonCb : Option (Nat → Nat → Int)

/-- The `topicId` member set once by the `TopicBase` constructor
(MsgBus.hpp line 38): `fnv1a32` of the immutable name. -/
def Topic.getId (t : Topic) : Nat := fnv1a32 t.name

/-- `msg.size()` for this topic's stored `QMsg<uint32_t, T>`. -/
def Topic.msgSize (t : Topic) : Nat := QMsgSize t.payloadSize

/-- `TopicBase::addSubscriber` (MsgBus.hpp lines 52-65): `find_if` on the
(receiver, id) pair; absent ⇒ `push_back` and `true`, present ⇒ `false`. -/
def Topic.addSubscriber (t : Topic) (q : Nat) (topicId : Nat) : Bool × Topic :=
  match t.subscribers.find? (fun s => s.q == q && s.id == topicId) with
  | some _ => (false, t)
  | none => (true, { t with subscribers := t.subscribers ++ [⟨q, topicId⟩] })

/-- `TopicBase::removeSubscriber` (MsgBus.hpp lines 72-84): `remove_if` +
`erase` of every matching (receiver, id) pair; `true` iff one matched. -/
def Topic.removeSubscriber (t : Topic) (q : Nat) (topicId : Nat) : Bool × Topic :=
  if t.subscribers.any (fun s => s.q == q && s.id == topicId) then
    (true, { t with subscribers :=
      t.subscribers.filter (fun s => !(s.q == q && s.id == topicId)) })
  else (false, t)

/-- The C++ conversion of the `bool` returned by `IRtosMsgReceiver::send`
to an integer, as performed by the comparison in `Topic::notify`. -/
def boolToSize (b : Bool) : Nat := if b then 1 else 0

/-- The loop body of `Topic::notify` (MsgBus.hpp lines 174-180) over the
snapshot copy of the subscriber list: for each subscriber, set
`msg.cmd = s.id`, call `s.q->send(&msg, msg.size())`, and count an error
when the (bool-converted) return differs from `msg.size()`.  Returns the
error count, the final `msg.cmd`, and the send calls performed in order. -/
def notifyGo (msgData msgLen : Nat) (sendF : Nat → Nat → Bool) :
    List Sub → Nat → Nat × Nat × List SendEvent
  | [], cmd => (0, cmd, [])
  | s :: rest, _cmd =>
      let r := notifyGo msgData msgLen sendF rest s.id
      ((if boolToSize (sendF s.q msgLen) ≠ msgLen then 1 else 0) + r.1,
       r.2.1, ⟨s.q, s.id, msgData, msgLen⟩ :: r.2.2)

/-- `Topic::notify` (MsgBus.hpp lines 163-182): zero early-out on an empty
subscriber list, otherwise iterate over the snapshot.  Returns the error
count, the topic as left behind (only `msg.cmd` was written), and the send
calls made. -/
def Topic.notify (t : Topic) (sendF : Nat → Nat → Bool) :
    Nat × Topic × List SendEvent :=
  if t.subscribers.length = 0 then (0, t, [])
  else
    let r := notifyGo t.msg.data t.msgSize sendF t.subscribers t.msg.cmd
    (r.1, { t with msg := ⟨r.2.1, t.msg.data⟩ }, r.2.2)

/-- `Topic<T>::toJson(std::span<char> json)` (MsgBus.hpp lines 230-235):
`-1` when the to-json callback is absent, else the callback's return on the
stored data and the buffer size. -/
def Topic.toJsonOut (t : Topic) (bufSize : Nat) : Int :=
  match t.toJsonCb with
  | none => -1
  | some cb => cb t.msg.data bufSize

/-- `Topic::toJsonFloat` (MsgBus.hpp lines 237-243) with the length that
`snprintf` would produce abstracted as `written`: the result is `-1` when
`written ≥` the buffer size (truncation), else `written`. -/
def toJsonFloatModel (written : Nat) (bufSize : Nat) : Int :=
  if written ≥ bufSize then -1 else (written : Nat)

/-- `MsgBus::topics_` (MsgBus.hpp line 490): the `std::map<TopicId,
TopicBase*>`, as an insert-only association list. -/
structure BusState where
  topics : List (Nat × Topic)

namespace MsgBus

/-- `MsgBus::findTopic` (MsgBus.hpp lines 482-489): map lookup by id. -/
def findTopic (s : BusState) (h : Nat) : Option Topic :=
  (s.topics.find? (fun p => p.1 == h)).map (fun p => p.2)

/-- `MsgBus::registerTopic` (MsgBus.hpp lines 306-318): null topic ⇒
`ZERO_TOPIC`; `emplace` under the hash of the name inserts only when the
key is absent; the out-handle is written only on insertion. -/
def registerTopic (s : BusState) (topic : Option Topic) :
    Result × BusState × Option Nat :=
  match topic with
  | none => (Result.ZERO_TOPIC, s, none)
  | some t =>
      let topicHandle := fnv1a32 t.name
      match findTopic s topicHandle with
      | some _ => (Result.TOPIC_EXISTS, s, none)
      | none =>
          (Result.OK, ⟨s.topics ++ [(topicHandle, t)]⟩, some topicHandle)

/-- `MsgBus::topicId` (MsgBus.hpp lines 320-326): hash the name, return the
hash when the map holds it, else `0`. -/
def topicId (s : BusState) (name : List Nat) : Nat :=
  let tid := fnv1a32 name
  match findTopic s tid with
  | some _ => tid
  | none => 0

/-- `MsgBus::topicName` (MsgBus.hpp lines 328-333): name when found, else
the empty string. -/
def topicName (s : BusState) (tid : Nat) : List Nat :=
  match findTopic s tid with
  | some t => t.name
  | none => []

/-- Writing a mutated topic back through its registry slot: the topics are
held by pointer in C++, so a mutation through the pointer is visible at
every slot holding that key. -/
def updateTopic (s : BusState) (h : Nat) (t : Topic) : BusState :=
  ⟨s.topics.map (fun p => if p.1 == h then (p.1, t) else p)⟩

/-- `MsgBus::subscribe(TopicId, IRtosMsgReceiver&)` (MsgBus.hpp lines
342-348): lookup, then `addSubscriber(receiver, topicId)` — the recorded
message id is the topic id itself. -/
def subscribe (s : BusState) (tid : Nat) (recv : Nat) : Result × BusState :=
  match findTopic s tid with
  | none => (Result.TOPIC_NOT_FOUND, s)
  | some t =>
      let r := t.addSubscriber recv tid
      (if r.1 then Result.OK else Result.SUB_EXISTS, updateTopic s tid r.2)

/-- `MsgBus::unsubscribe` (MsgBus.hpp lines 358-369). -/
def unsubscribe (s : BusState) (tid : Nat) (recv : Nat) : Result × BusState :=
  match findTopic s tid with
  | none => (Result.TOPIC_NOT_FOUND, s)
  | some t =>
      let r := t.removeSubscriber recv tid
      (if r.1 then Result.OK else Result.SUB_NOT_FOUND, updateTopic s tid r.2)

/-- `MsgBus::requestWrite<T>(TopicId, const T&)` (MsgBus.hpp lines
379-388) composed with `Topic<T>::requestWrite(const T&)` (lines 195-200):
lookup, per-type token comparison, then the write callback; a missing or
failing callback yields `WRITE_FAILED`.  `tok` is `getTypeId<T>()` for the
value's type.  The last component lists the send calls performed — this
path performs none. -/
def requestWrite (s : BusState) (tid : Nat) (tok : Nat) (v : Nat) :
    Result × BusState × List SendEvent :=
  match findTopic s tid with
  | none => (Result.TOPIC_NOT_FOUND, s, [])
  | some t =>
      if t.tyId ≠ tok then (Result.TYPE_MISMATCH, s, [])
      else
        match t.writeCb with
        | none => (Result.WRITE_FAILED, s, [])
        | some cb =>
            let r := cb v t.msg.data
            ((if r.1 then Result.OK else Result.WRITE_FAILED),
             updateTopic s tid { t with msg := ⟨t.msg.cmd, r.2⟩ }, [])

/-- `MsgBus::requestWrite<T>(std::string_view, const T&)` (MsgBus.hpp lines
389-396): resolve the name; an id of `0` is treated as not found. -/
def requestWriteByName (s : BusState) (name : List Nat) (tok : Nat) (v : Nat) :
    Result × BusState × List SendEvent :=
  let tid := topicId s name
  if tid = 0 then (Result.TOPIC_NOT_FOUND, s, [])
  else requestWrite s tid tok v

/-- `MsgBus::toJson(TopicId, std::span<char>)` (MsgBus.hpp lines 420-428):
`if (topic->toJson(json))` — any nonzero `int`, including the `-1` error
return, converts to `true`. -/
def toJson (s : BusState) (tid : Nat) (bufSize : Nat) : Result :=
  match findTopic s tid with
  | none => Result.TOPIC_NOT_FOUND
  | some t => if t.toJsonOut bufSize ≠ 0 then Result.OK else Result.JSON_PARSE_FAILED

end MsgBus

/-! ## Scheduler (`src/MsgSchedulerTask.hpp`)

`MsgSchedulerTask` runs on its own task; the pending `std::list<SMsg*>` is
mutated only there.  Pointers are modeled as numeric handles: `new SMsg()`
yields a fresh handle, `cancel` compares by handle, and the send performed
by `processQueue` passes `&(*it)` — the address of the entry pointer in the
list node — as the data argument. -/

/-- `MsgSchedulerTask::SMsg` (MsgSchedulerTask.hpp lines 26-33): the struct
holds only the receiver, period, absolute next-fire time, periodic flag and
the caller-supplied payload size; the payload bytes handed to `schedule`
are not part of it.  `handle` is the entry's pointer identity. -/
structure SMsg where
  task : Nat
  period : Nat
  nextTime : Nat
  periodic : Bool
  size : Nat
  handle : Nat
deriving DecidableEq, Repr

/-- The data argument of a send performed somewhere in the embedding:
either the bytes at the address of a pending-list node's entry pointer
(what `MsgSchedulerTask::processQueue` line 128 passes), or literal payload
bytes (what the specification describes; no code path produces this). -/
inductive Sent where
  | entryAddr (handle : Nat) (size : Nat)
  | payloadBytes (bytes : List Nat)
deriving DecidableEq, Repr

/-- One `task->send` call fired by the scheduler. -/
structure Fire where
  task : Nat
  content : Sent
deriving DecidableEq, Repr

/-- `RTOS_TASK_WAIT_FOREVER` (src/RtosTask.hpp line 6), the `uint32_t`
sentinel `receiveTimeout` receives when the pending list is empty. -/
def RTOS_TASK_WAIT_FOREVER : Nat := 0xffffffff

/-- The walk of `MsgSchedulerTask::processQueue` (MsgSchedulerTask.hpp
lines 126-137): from the front, while the entry at the iterator is due
(`nextTime ≤ current`), send to its task the bytes at the address of the
entry pointer with the stored size; a periodic entry is re-armed in place
to `current + period` and the iterator advances, a one-shot entry is
erased.  Returns the list left behind and the sends in call order. -/
def processQueueGo (current : Nat) : List SMsg → List SMsg × List Fire
  | [] => ([], [])
  | e :: rest =>
      if e.nextTime ≤ current then
        if e.periodic then
          let r := processQueueGo current rest
          ({ e with nextTime := current + e.period } :: r.1,
           ⟨e.task, Sent.entryAddr e.handle e.size⟩ :: r.2)
        else
          let r := processQueueGo current rest
          (r.1, ⟨e.task, Sent.entryAddr e.handle e.size⟩ :: r.2)
      else (e :: rest, [])

/-- `MsgSchedulerTask::processQueue` (lines 123-150): the walk, then the
`receiveTimeout` update — `front->nextTime - current` (clamped at `0`,
truncated to `uint32_t`) when the list is non-empty, wait-forever when it
is empty.  Returns (list, fires, timeout value). -/
def processQueue (current : Nat) (l : List SMsg) :
    List SMsg × List Fire × Nat :=
  let r := processQueueGo current l
  match r.1 with
  | [] => (r.1, r.2, RTOS_TASK_WAIT_FOREVER)
  | e :: _ =>
      (r.1, r.2, (if e.nextTime > current then e.nextTime - current else 0) % M32)

/-- Insertion step of a stable sort by `nextTime` with the strict
comparator of MsgSchedulerTask.hpp lines 106-107. -/
def insertByNextTime (e : SMsg) : List SMsg → List SMsg
  | [] => [e]
  | x :: xs =>
      if x.nextTime < e.nextTime then x :: insertByNextTime e xs
      else e :: x :: xs

/-- `_list.sort([](a, b){ return a->nextTime < b->nextTime; })`
(MsgSchedulerTask.hpp lines 106-107): `std::list::sort` is stable, so its
output is that of a stable insertion sort under the same comparator. -/
def sortByNextTime : List SMsg → List SMsg
  | [] => []
  | x :: xs => insertByNextTime x (sortByNextTime xs)

/-- The two commands of `SchedulerCmd` (MsgSchedulerTask.hpp lines 15-19)
with the `SMsg*` each carries: `add` carries the new entry, `cancel` the
handle to remove. -/
inductive SchedulerMsg where
  | add (m : SMsg)
  | cancel (handle : Nat)
deriving DecidableEq, Repr

/-- `MsgSchedulerTask::handleMessage` (lines 86-108): `add` pushes the
entry at the back, `cancel` removes every entry equal to the handle
(`std::list::remove`); then `processQueue` runs — on the not-yet-re-sorted
list — and only afterwards is the list sorted by next-fire time. -/
def handleMessage (msg : SchedulerMsg) (current : Nat) (l : List SMsg) :
    List SMsg × List Fire × Nat :=
  let l1 := match msg with
    | .add m => l ++ [m]
    | .cancel h => l.filter (fun e => !(e.handle == h))
  let r := processQueue current l1
  (sortByNextTime r.1, r.2.1, r.2.2)

/-- `MsgSchedulerTask::handleTimeout` (lines 110-113): just
`processQueue`; no re-sort happens on this path. -/
def handleTimeout (current : Nat) (l : List SMsg) :
    List SMsg × List Fire × Nat :=
  processQueue current l

/-- `MsgSchedulerTask::schedule` (lines 45-72) as observed at the call
boundary: a null data pointer or zero size is rejected; otherwise an
`SMsg` is allocated (fresh handle `newHandle`) carrying the receiver, the
delay as both period and offset from `nowT`, the periodic flag, and the
size — but not the payload bytes, which `schedule` never stores — and an
`add` request is enqueued; when that enqueue fails the entry is freed and
null returned.  The result is the entry the scheduler task will receive
(`none` for a rejected call). -/
def schedule (task : Nat) (data : Option (List Nat)) (size : Nat)
    (delay : Nat) (periodic : Bool) (nowT : Nat) (newHandle : Nat)
    (sendOk : Bool) : Option SMsg :=
  match data with
  | none => none
  | some _ =>
      if size = 0 then none
      else if sendOk then
        some ⟨task, delay, nowT + delay, periodic, size, newHandle⟩
      else none

/-! ## Basic lemmas about the notify loop -/

theorem boolToSize_le_one (b : Bool) : boolToSize b ≤ 1 := by
  cases b <;> simp [boolToSize]

theorem notifyGo_events (d len : Nat) (f : Nat → Nat → Bool)
    (subs : List Sub) (cmd : Nat) :
    (notifyGo d len f subs cmd).2.2
      = subs.map (fun s => ⟨s.q, s.id, d, len⟩) := by
  induction subs generalizing cmd with
  | nil => rfl
  | cons s rest ih => simp [notifyGo, ih]

theorem notifyGo_errors (d len : Nat) (f : Nat → Nat → Bool)
    (subs : List Sub) (cmd : Nat) (h : 2 ≤ len) :
    (notifyGo d len f subs cmd).1 = subs.length := by
  induction subs generalizing cmd with
  | nil => rfl
  | cons s rest ih =>
      have hb : boolToSize (f s.q len) ≠ len := by
        have := boolToSize_le_one (f s.q len); omega
      simp [notifyGo, ih, hb, Nat.add_comm]

theorem two_le_msgSize (t : Topic) : 2 ≤ t.msgSize := by
  simp [Topic.msgSize, QMsgSize]; omega

theorem notify_subscribers_data (t : Topic) (sendF : Nat → Nat → Bool) :
    ((t.notify sendF).2.1).subscribers = t.subscribers
      ∧ ((t.notify sendF).2.1).msg.data = t.msg.data := by
  unfold Topic.notify
  by_cases h : t.subscribers.length = 0 <;> simp [h]

theorem notify_events_to (t : Topic) (sendF : Nat → Nat → Bool) (R : Nat) :
    (t.notify sendF).2.2.filter (fun ev => ev.recv == R)
      = (t.subscribers.filter (fun s => s.q == R)).map
          (fun s => ⟨s.q, s.id, t.msg.data, t.msgSize⟩) := by
  unfold Topic.notify
  by_cases h : t.subscribers.length = 0
  · simp [h, List.length_eq_zero.mp h]
  · simp only [h, if_false, notifyGo_events]
    exact List.filter_map _ t.subscribers

/-! ## Lemmas about the registry map -/

theorem find?_update (l : List (Nat × Topic)) (k : Nat) (t2 : Topic) (k2 : Nat) :
    (l.map (fun p => if p.1 == k then (p.1, t2) else p)).find? (fun p => p.1 == k2)
      = if k2 = k then (l.find? (fun p => p.1 == k2)).map (fun p => (p.1, t2))
        else l.find? (fun p => p.1 == k2) := by
  induction l with
  | nil => by_cases h : k2 = k <;> simp [h]
  | cons p rest ih =>
      by_cases h1 : p.1 = k <;> by_cases h2 : p.1 = k2 <;>
        by_cases h3 : k2 = k <;>
        simp_all [List.find?_cons]

theorem findTopic_updateTopic (s : BusState) (k : Nat) (t2 : Topic) (k2 : Nat) :
    MsgBus.findTopic (MsgBus.updateTopic s k t2) k2
      = if k2 = k then (MsgBus.findTopic s k).map (fun _ => t2)
        else MsgBus.findTopic s k2 := by
  unfold MsgBus.findTopic MsgBus.updateTopic
  rw [find?_update]
  by_cases h : k2 = k
  · simp only [h, if_true]
    cases s.topics.find? (fun p => p.1 == k) <;> rfl
  · simp [h]

theorem findTopic_updateTopic_isSome (s : BusState) (k : Nat) (t2 : Topic)
    (k2 : Nat) :
    (MsgBus.findTopic (MsgBus.updateTopic s k t2) k2).isSome
      = (MsgBus.findTopic s k2).isSome := by
  rw [findTopic_updateTopic]
  by_cases h : k2 = k
  · simp only [h, if_true]
    cases MsgBus.findTopic s k <;> rfl
  · simp [h]

theorem findTopic_append (s : BusState) (x : Nat × Topic) (k2 : Nat) :
    MsgBus.findTopic (⟨s.topics ++ [x]⟩ : BusState) k2
      = match MsgBus.findTopic s k2 with
        | some t => some t
        | none => if x.1 == k2 then some x.2 else none := by
  unfold MsgBus.findTopic
  rw [List.find?_append]
  cases h : s.topics.find? (fun p => p.1 == k2) <;>
    by_cases h2 : x.1 = k2 <;>
      simp_all [List.find?, show (x.1 == k2) = decide (x.1 = k2) from rfl]

/-! ## Concrete fixtures -/

/-- A receiver environment in which every send is accepted. -/
def sendAlwaysTrue : Nat → Nat → Bool := fun _ _ => true

/-- A topic with a single subscriber (receiver 8, message id 5), no
callbacks, payload size 4. -/
def t0c2 : Topic := ⟨[110], 1, ⟨0, 42⟩, 4, [⟨8, 5⟩], none, none⟩

/-! ## C2 -/

/-- C2: the claim states that `Topic::notify` returns exactly the number of
subscribers whose send did not accept the full envelope length
`sizeof(command) + sizeof(payload)`, removing no subscriber and leaving the
stored payload unchanged.  The subscriber list and the stored payload are
indeed untouched, but the returned count is always the total number of
subscribers: `IRtosMsgReceiver::send` returns a C++ `bool`, which converts
to `0` or `1`, and `msg.size() = 4 + sizeof(T)` is at least `5`, so the
test `send(&msg, msg.size()) != msg.size()` holds for every subscriber —
including one whose send accepted the envelope (the concrete conjunct:
one subscriber, every send accepted, yet the count is `1`, not `0`). -/
theorem C2_notify_counts_all_subscribers (t : Topic) (sendF : Nat → Nat → Bool) :
    (t.notify sendF).1 = t.subscribers.length
  ∧ ((t.notify sendF).2.1).subscribers = t.subscribers
  ∧ ((t.notify sendF).2.1).msg.data = t.msg.data
  ∧ (t0c2.notify sendAlwaysTrue).1 = 1 := by
  refine ⟨?_, (notify_subscribers_data t sendF).1,
    (notify_subscribers_data t sendF).2, by decide⟩
  unfold Topic.notify
  by_cases h : t.subscribers.length = 0
  · simp [h]
  · simp [h, notifyGo_errors _ _ _ _ _ (two_le_msgSize t)]

/-! ## C7 -/

/-- C7: for a topic on which receiver `R` holds no subscription, a
successful `addSubscriber(R, m)` appends the (R, m) pair; a `notify` then
performs exactly one send to `R`; a second `addSubscriber(R, m)` returns
`false` (surfaced as `SUB_EXISTS`) and leaves the list unchanged; after
`removeSubscriber(R, m)` a `notify` performs no send to `R`. -/
theorem C7_subscribe_roundtrip (t : Topic) (R m : Nat)
    (sendF : Nat → Nat → Bool)
    (hfresh : ∀ s ∈ t.subscribers, s.q ≠ R) :
    (t.addSubscriber R m).1 = true
  ∧ (t.addSubscriber R m).2.subscribers = t.subscribers ++ [⟨R, m⟩]
  ∧ (((t.addSubscriber R m).2.notify sendF).2.2.filter
        (fun ev => ev.recv == R)).length = 1
  ∧ (t.addSubscriber R m).2.addSubscriber R m = (false, (t.addSubscriber R m).2)
  ∧ ((t.addSubscriber R m).2.removeSubscriber R m).1 = true
  ∧ ((((t.addSubscriber R m).2.removeSubscriber R m).2.notify sendF).2.2.filter
        (fun ev => ev.recv == R)).length = 0 := by
  have hnone : t.subscribers.find? (fun s => s.q == R && s.id == m) = none := by
    rw [List.find?_eq_none]
    intro s hs
    simp [hfresh s hs]
  have hadd : t.addSubscriber R m
      = (true, { t with subscribers := t.subscribers ++ [⟨R, m⟩] }) := by
    unfold Topic.addSubscriber
    rw [hnone]
  have hsubfilter : t.subscribers.filter (fun s => s.q == R) = [] := by
    rw [List.filter_eq_nil_iff]
    intro s hs
    simp [hfresh s hs]
  have hkeep : t.subscribers.filter (fun s => !(s.q == R && s.id == m))
      = t.subscribers := by
    rw [List.filter_eq_self]
    intro s hs
    simp [hfresh s hs]
  have hrem : (({ t with subscribers := t.subscribers ++ [⟨R, m⟩] } :
      Topic).removeSubscriber R m)
      = (true, t) := by
    unfold Topic.removeSubscriber
    rw [if_pos (by simp :
      ((t.subscribers ++ [(⟨R, m⟩ : Sub)]).any
        (fun s => s.q == R && s.id == m)) = true)]
    rw [List.filter_append, hkeep]
    simp
  refine ⟨by rw [hadd], by rw [hadd], ?_, ?_, ?_, ?_⟩
  · rw [hadd, notify_events_to]
    simp [List.filter_append, hsubfilter]
  · rw [hadd]
    unfold Topic.addSubscriber
    rw [List.find?_append, hnone]
    simp [List.find?]
  · rw [hadd, hrem]
  · rw [hadd, hrem, notify_events_to, hsubfilter]
    simp

/-! ## C3 -/

theorem requestWrite_found (s : BusState) (tid tok v : Nat) (t : Topic)
    (hfind : MsgBus.findTopic s tid = some t) :
    MsgBus.requestWrite s tid tok v
      = if t.tyId ≠ tok then (Result.TYPE_MISMATCH, s, [])
        else match t.writeCb with
          | none => (Result.WRITE_FAILED, s, [])
          | some cb =>
              ((if (cb v t.msg.data).1 then Result.OK else Result.WRITE_FAILED),
               MsgBus.updateTopic s tid
                 { t with msg := ⟨t.msg.cmd, (cb v t.msg.data).2⟩ }, []) := by
  unfold MsgBus.requestWrite
  rw [hfind]

theorem requestWrite_no_send (s : BusState) (tid tok v : Nat) :
    (MsgBus.requestWrite s tid tok v).2.2 = [] := by
  cases hf : MsgBus.findTopic s tid with
  | none =>
      unfold MsgBus.requestWrite
      rw [hf]
  | some t =>
      rw [requestWrite_found s tid tok v t hf]
      by_cases hne : t.tyId = tok
      · rw [if_neg (not_not_intro hne)]
        cases t.writeCb with
        | none => rfl
        | some cb => rfl
      · rw [if_pos hne]

theorem requestWrite_preserves_subscribers (s : BusState) (tid tok v k2 : Nat)
    (t2 : Topic) (hk2 : MsgBus.findTopic s k2 = some t2) :
    ∃ t3, MsgBus.findTopic (MsgBus.requestWrite s tid tok v).2.1 k2 = some t3
      ∧ t3.subscribers = t2.subscribers := by
  cases hf : MsgBus.findTopic s tid with
  | none =>
      unfold MsgBus.requestWrite
      rw [hf]
      exact ⟨t2, hk2, rfl⟩
  | some t =>
      rw [requestWrite_found s tid tok v t hf]
      by_cases hne : t.tyId = tok
      · rw [if_neg (not_not_intro hne)]
        cases hcb : t.writeCb with
        | none => exact ⟨t2, hk2, rfl⟩
        | some cb =>
            dsimp only
            rw [findTopic_updateTopic]
            by_cases hk : k2 = tid
            · subst hk
              rw [hf] at hk2
              injection hk2 with ht2
              subst ht2
              rw [if_pos rfl, hf]
              exact ⟨_, rfl, rfl⟩
            · rw [if_neg hk]
              exact ⟨t2, hk2, rfl⟩
      · rw [if_pos hne]
        exact ⟨t2, hk2, rfl⟩

/-- C3: on a registered topic, `requestWrite` with a value whose per-type
token differs from the topic's stored token returns `TYPE_MISMATCH` and
leaves the bus state — hence the topic's payload — untouched; on a token
match the write callback is invoked and the result is `OK` exactly when the
callback succeeds, `WRITE_FAILED` otherwise; and in no case does
`requestWrite` notify subscribers: it performs no send and every topic's
subscriber list is unchanged. -/
theorem C3_requestWrite_type_checked (s : BusState) (tid tok v : Nat)
    (t : Topic) (hfind : MsgBus.findTopic s tid = some t) :
    (t.tyId ≠ tok →
       MsgBus.requestWrite s tid tok v = (Result.TYPE_MISMATCH, s, []))
  ∧ (∀ cb, t.tyId = tok → t.writeCb = some cb →
       MsgBus.requestWrite s tid tok v
         = ((if (cb v t.msg.data).1 then Result.OK else Result.WRITE_FAILED),
            MsgBus.updateTopic s tid
              { t with msg := ⟨t.msg.cmd, (cb v t.msg.data).2⟩ }, []))
  ∧ (MsgBus.requestWrite s tid tok v).2.2 = []
  ∧ (∀ k2 t2, MsgBus.findTopic s k2 = some t2 →
       ∃ t3, MsgBus.findTopic (MsgBus.requestWrite s tid tok v).2.1 k2 = some t3
         ∧ t3.subscribers = t2.subscribers) := by
  refine ⟨?_, ?_, requestWrite_no_send s tid tok v,
    fun k2 t2 hk2 => requestWrite_preserves_subscribers s tid tok v k2 t2 hk2⟩
  · intro hne
    rw [requestWrite_found s tid tok v t hfind, if_pos hne]
  · intro cb heq hcb
    rw [requestWrite_found s tid tok v t hfind,
      if_neg (not_not_intro heq), hcb]

/-! ## C4 -/

/-- C4: `registerTopic` returns `ZERO_TOPIC` for a null topic and changes
nothing; re-registering under a name whose hash is already mapped returns
`TOPIC_EXISTS` with the registry — including the first topic's entry —
unchanged; a successful registration appends the entry, after which the
topic is reachable by its id (`findTopic`), its name resolves to that id
(`topicId`), and the id resolves back to the name (`topicName`). -/
theorem C4_registerTopic (s : BusState) (t : Topic) :
    MsgBus.registerTopic s none = (Result.ZERO_TOPIC, s, none)
  ∧ ((MsgBus.findTopic s (fnv1a32 t.name)).isSome = true →
       MsgBus.registerTopic s (some t) = (Result.TOPIC_EXISTS, s, none))
  ∧ (MsgBus.findTopic s (fnv1a32 t.name) = none →
       MsgBus.registerTopic s (some t)
         = (Result.OK, ⟨s.topics ++ [(fnv1a32 t.name, t)]⟩, some (fnv1a32 t.name))
     ∧ MsgBus.findTopic (⟨s.topics ++ [(fnv1a32 t.name, t)]⟩ : BusState)
         (fnv1a32 t.name) = some t
     ∧ MsgBus.topicId (⟨s.topics ++ [(fnv1a32 t.name, t)]⟩ : BusState) t.name
         = fnv1a32 t.name
     ∧ MsgBus.topicName (⟨s.topics ++ [(fnv1a32 t.name, t)]⟩ : BusState)
         (fnv1a32 t.name) = t.name) := by
  refine ⟨rfl, ?_, ?_⟩
  · intro h
    obtain ⟨x, hx⟩ := Option.isSome_iff_exists.mp h
    simp only [MsgBus.registerTopic, hx]
  · intro h
    have hfound : MsgBus.findTopic
        (⟨s.topics ++ [(fnv1a32 t.name, t)]⟩ : BusState) (fnv1a32 t.name)
        = some t := by
      rw [findTopic_append, h]
      simp
    refine ⟨?_, hfound, ?_, ?_⟩
    · simp only [MsgBus.registerTopic, h]
    · simp only [MsgBus.topicId, hfound]
    · simp only [MsgBus.topicName, hfound]

/-! ## C5 -/

/-- A topic named "a" with no to-json callback. -/
def tNoJson : Topic := ⟨[97], 1, ⟨0, 0⟩, 4, [], none, none⟩

/-- A topic named "b" whose to-json callback renders 8 characters, as
`Topic::toJsonFloat` would for a typical float value. -/
def tFloatJson : Topic := ⟨[98], 2, ⟨0, 0⟩, 4, [], none,
  some (fun _ bufSize => toJsonFloatModel 8 bufSize)⟩

/-- Bus state with `tNoJson` and `tFloatJson` registered. -/
def s0c5 : BusState :=
  (MsgBus.registerTopic
    ((MsgBus.registerTopic ⟨[]⟩ (some tNoJson)).2.1) (some tFloatJson)).2.1

/-- C5: the claim states `toJson` returns `TOPIC_NOT_FOUND` for an unknown
id (which holds), and `JSON_PARSE_FAILED` when the encode hook is absent or
the buffer too small.  The code instead returns `OK` in both failure
cases: `MsgBus::toJson` tests `if (topic->toJson(json))`, and the `-1`
error return of the encode path is nonzero, hence truthy.  Registered
topic "a" has no hook (`toJsonOut = -1`), topic "b"'s hook truncates in a
4-byte buffer (`toJsonOut = -1`); both calls return `OK`. -/
theorem C5_toJson_swallows_errors :
    MsgBus.toJson s0c5 999 16 = Result.TOPIC_NOT_FOUND
  ∧ tNoJson.toJsonCb = none
  ∧ MsgBus.findTopic s0c5 (fnv1a32 [97]) = some tNoJson
  ∧ tNoJson.toJsonOut 16 = -1
  ∧ MsgBus.toJson s0c5 (fnv1a32 [97]) 16 = Result.OK
  ∧ MsgBus.findTopic s0c5 (fnv1a32 [98]) = some tFloatJson
  ∧ tFloatJson.toJsonOut 4 = -1
  ∧ MsgBus.toJson s0c5 (fnv1a32 [98]) 4 = Result.OK
  ∧ Result.OK ≠ Result.JSON_PARSE_FAILED := by
  refine ⟨rfl, rfl, rfl, rfl, rfl, rfl, rfl, rfl, by decide⟩

/-! ## C8 -/

/-- The state-mutating public operations of `MsgBus`. -/
inductive BusOp where
  | register (t : Option Topic)
  | subscribe (tid recv : Nat)
  | unsubscribe (tid recv : Nat)
  | write (tid tok v : Nat)
  | writeByName (name : List Nat) (tok v : Nat)

/-- The bus state after one operation. -/
def busStep (s : BusState) (op : BusOp) : BusState :=
  match op with
  | .register t => (MsgBus.registerTopic s t).2.1
  | .subscribe tid r => (MsgBus.subscribe s tid r).2
  | .unsubscribe tid r => (MsgBus.unsubscribe s tid r).2
  | .write tid tok v => (MsgBus.requestWrite s tid tok v).2.1
  | .writeByName n tok v => (MsgBus.requestWriteByName s n tok v).2.1

/-- The bus state after a sequence of operations. -/
def busRun (s : BusState) (ops : List BusOp) : BusState := ops.foldl busStep s

theorem findTopic_registerTopic_isSome (s : BusState) (t : Option Topic)
    (k : Nat) (h : (MsgBus.findTopic s k).isSome = true) :
    (MsgBus.findTopic (MsgBus.registerTopic s t).2.1 k).isSome = true := by
  cases t with
  | none => exact h
  | some t0 =>
      obtain ⟨x, hx⟩ := Option.isSome_iff_exists.mp h
      cases hf : MsgBus.findTopic s (fnv1a32 t0.name) with
      | some y => simpa only [MsgBus.registerTopic, hf] using h
      | none =>
          simp only [MsgBus.registerTopic, hf]
          rw [findTopic_append, hx]
          rfl

theorem busStep_preserves_found (s : BusState) (op : BusOp) (k : Nat)
    (h : (MsgBus.findTopic s k).isSome = true) :
    (MsgBus.findTopic (busStep s op) k).isSome = true := by
  cases op with
  | register t => exact findTopic_registerTopic_isSome s t k h
  | subscribe tid r =>
      cases hf : MsgBus.findTopic s tid with
      | none => simpa only [busStep, MsgBus.subscribe, hf] using h
      | some t0 =>
          simp only [busStep, MsgBus.subscribe, hf]
          rw [findTopic_updateTopic_isSome]
          exact h
  | unsubscribe tid r =>
      cases hf : MsgBus.findTopic s tid with
      | none => simpa only [busStep, MsgBus.unsubscribe, hf] using h
      | some t0 =>
          simp only [busStep, MsgBus.unsubscribe, hf]
          rw [findTopic_updateTopic_isSome]
          exact h
  | write tid tok v =>
      obtain ⟨t2, ht2⟩ := Option.isSome_iff_exists.mp h
      obtain ⟨t3, h3, _⟩ :=
        requestWrite_preserves_subscribers s tid tok v k t2 ht2
      simp only [busStep, h3, Option.isSome_some]
  | writeByName n tok v =>
      simp only [busStep, MsgBus.requestWriteByName]
      by_cases h0 : MsgBus.topicId s n = 0
      · rw [if_pos h0]
        exact h
      · rw [if_neg h0]
        obtain ⟨t2, ht2⟩ := Option.isSome_iff_exists.mp h
        obtain ⟨t3, h3, _⟩ :=
          requestWrite_preserves_subscribers s (MsgBus.topicId s n) tok v k t2 ht2
        rw [h3]
        rfl

theorem busRun_preserves_found (s : BusState) (ops : List BusOp) (k : Nat)
    (h : (MsgBus.findTopic s k).isSome = true) :
    (MsgBus.findTopic (busRun s ops) k).isSome = true := by
  induction ops generalizing s with
  | nil => exact h
  | cons op rest ih => exact ih _ (busStep_preserves_found s op k h)

theorem topicId_of_found (s : BusState) (name : List Nat)
    (h : (MsgBus.findTopic s (fnv1a32 name)).isSome = true) :
    MsgBus.topicId s name = fnv1a32 name := by
  obtain ⟨x, hx⟩ := Option.isSome_iff_exists.mp h
  simp only [MsgBus.topicId, hx]

/-- C8: a successful `registerTopic` hands back exactly the 32-bit FNV-1a
hash of the topic's name (offset basis `0x811C9DC5`, prime `0x01000193`
per byte, pinned by the two trailing conjuncts) as the topic's id;
`topicId` resolves the name to that same hash, and keeps doing so after
any further sequence of bus operations — the registry is insert-only, so
the lookup is stable for the rest of the process run. -/
theorem C8_topicId_is_fnv1a (s : BusState) (t : Topic) (s2 : BusState)
    (h : Nat)
    (hr : MsgBus.registerTopic s (some t) = (Result.OK, s2, some h)) :
    h = fnv1a32 t.name
  ∧ MsgBus.topicId s2 t.name = fnv1a32 t.name
  ∧ (∀ ops, MsgBus.topicId (busRun s2 ops) t.name = fnv1a32 t.name)
  ∧ fnv1a32 [] = 0x811C9DC5
  ∧ (∀ bs c, fnv1a32 (bs ++ [c])
       = ((fnv1a32 bs ^^^ (c % 256)) * 0x01000193) % M32) := by
  have hcase : h = fnv1a32 t.name
      ∧ s2 = ⟨s.topics ++ [(fnv1a32 t.name, t)]⟩ := by
    cases hf : MsgBus.findTopic s (fnv1a32 t.name) with
    | some x =>
        simp only [MsgBus.registerTopic, hf, Prod.mk.injEq] at hr
        cases hr.1
    | none =>
        simp only [MsgBus.registerTopic, hf, Prod.mk.injEq,
          Option.some.injEq] at hr
        exact ⟨hr.2.2.symm, hr.2.1.symm⟩
  obtain ⟨hh, hs2⟩ := hcase
  have hnone : MsgBus.findTopic s (fnv1a32 t.name) = none := by
    cases hf : MsgBus.findTopic s (fnv1a32 t.name) with
    | none => rfl
    | some x =>
        simp only [MsgBus.registerTopic, hf, Prod.mk.injEq] at hr
        cases hr.1
  have hfound : (MsgBus.findTopic s2 (fnv1a32 t.name)).isSome = true := by
    rw [hs2, findTopic_append, hnone]
    simp
  refine ⟨hh, topicId_of_found s2 t.name hfound, ?_, rfl, ?_⟩
  · intro ops
    exact topicId_of_found _ t.name
      (busRun_preserves_found s2 ops (fnv1a32 t.name) hfound)
  · intro bs c
    simp [fnv1a32, List.foldl_append]

/-! ## C9 -/

/-- Registry well-formedness: every key is the FNV-1a hash of its topic's
name — exactly what `registerTopic`, the only inserter, establishes. -/
def BusWF (s : BusState) : Prop := ∀ p ∈ s.topics, p.1 = fnv1a32 p.2.name

theorem findTopic_key (s : BusState) (tid : Nat) (t : Topic) (hwf : BusWF s)
    (hfind : MsgBus.findTopic s tid = some t) : tid = fnv1a32 t.name := by
  unfold MsgBus.findTopic at hfind
  cases hp : s.topics.find? (fun p => p.1 == tid) with
  | none => rw [hp] at hfind; cases hfind
  | some pr =>
      rw [hp] at hfind
      have hmem := List.mem_of_find?_eq_some hp
      have hkey : pr.1 = tid := by simpa using List.find?_some hp
      have ht : pr.2 = t := by
        simpa using hfind
      rw [← hkey, ← ht]
      exact hwf pr hmem

/-- C9: `MsgBus::subscribe(topicId, receiver)` takes no message-id
argument; it records the subscription as the pair (receiver, topic id),
and the topic id of a well-formed registry entry is the topic's own id
(the hash of its name).  Hence each envelope a later `notify` sends to a
receiver subscribed through the bus carries the topic id in its command
field. -/
theorem C9_bus_subscription_carries_topic_id (s : BusState) (tid recv : Nat)
    (t : Topic) (sendF : Nat → Nat → Bool) (hwf : BusWF s)
    (hfind : MsgBus.findTopic s tid = some t)
    (hfresh : ∀ sb ∈ t.subscribers, sb.q ≠ recv) :
    tid = Topic.getId t
  ∧ (MsgBus.subscribe s tid recv).1 = Result.OK
  ∧ ∃ t2, MsgBus.findTopic (MsgBus.subscribe s tid recv).2 tid = some t2
      ∧ t2.subscribers = t.subscribers ++ [⟨recv, tid⟩]
      ∧ (t2.notify sendF).2.2.filter (fun ev => ev.recv == recv)
          = [⟨recv, tid, t.msg.data, t.msgSize⟩] := by
  have hid : tid = Topic.getId t := findTopic_key s tid t hwf hfind
  have hnone : t.subscribers.find? (fun sb => sb.q == recv && sb.id == tid)
      = none := by
    rw [List.find?_eq_none]
    intro sb hsb
    simp [hfresh sb hsb]
  have hadd : t.addSubscriber recv tid
      = (true, { t with subscribers := t.subscribers ++ [⟨recv, tid⟩] }) := by
    unfold Topic.addSubscriber
    rw [hnone]
  have hsub : MsgBus.subscribe s tid recv
      = (Result.OK, MsgBus.updateTopic s tid
          { t with subscribers := t.subscribers ++ [⟨recv, tid⟩] }) := by
    simp only [MsgBus.subscribe, hfind, hadd]
    simp
  refine ⟨hid, by rw [hsub], ?_⟩
  refine ⟨{ t with subscribers := t.subscribers ++ [⟨recv, tid⟩] }, ?_, rfl, ?_⟩
  · rw [hsub]
    dsimp only
    rw [findTopic_updateTopic, if_pos rfl, hfind]
    rfl
  · rw [notify_events_to]
    have hsubfilter : t.subscribers.filter (fun sb => sb.q == recv) = [] := by
      rw [List.filter_eq_nil_iff]
      intro sb hsb
      simp [hfresh sb hsb]
    simp [List.filter_append, hsubfilter, Topic.msgSize]

/-! ## C10 -/

/-- The 5-byte name "eSN.1", whose 32-bit FNV-1a hash is `0`. -/
def zeroHashName : List Nat := [101, 83, 78, 46, 49]

/-- A writable topic (type token 1) named `zeroHashName`. -/
def tZeroHash : Topic :=
  ⟨zeroHashName, 1, ⟨0, 0⟩, 4, [], some (fun v _ => (true, v)), none⟩

/-- The bus with `tZeroHash` registered: its registry key is `0`. -/
def sZeroHash : BusState := ⟨[(0, tZeroHash)]⟩

/-- C10: `topicId` returns `0` both for an unregistered name and for the
registered name "eSN.1", whose FNV-1a hash is `0` — the value that doubles
as the `INVALID_TOPIC_ID` sentinel.  Consequently `requestWrite` by name
reports `TOPIC_NOT_FOUND` for that topic (its name-resolved id `0` is
taken for "not found"), even though the topic is registered and the same
write through its id `0` succeeds. -/
theorem C10_zero_hash_id_shadowed :
    fnv1a32 zeroHashName = 0
  ∧ INVALID_TOPIC_ID = 0
  ∧ MsgBus.topicId (⟨[]⟩ : BusState) zeroHashName = 0
  ∧ MsgBus.registerTopic (⟨[]⟩ : BusState) (some tZeroHash)
      = (Result.OK, sZeroHash, some 0)
  ∧ MsgBus.topicId sZeroHash zeroHashName = 0
  ∧ MsgBus.findTopic sZeroHash 0 = some tZeroHash
  ∧ (MsgBus.requestWriteByName sZeroHash zeroHashName 1 5).1
      = Result.TOPIC_NOT_FOUND
  ∧ (MsgBus.requestWrite sZeroHash 0 1 5).1 = Result.OK := by
  exact ⟨by decide, rfl, rfl, rfl, rfl, rfl, rfl, rfl⟩

/-! ## C1 -/

/-- The one-shot entry of the C1 run: receiver 1, delay 100 requested at
time 0, payload size 1, handle 7. -/
def eC1 : SMsg := ⟨1, 100, 100, false, 1, 7⟩

/-- C1: the claim states that once the delay elapses the scheduler performs
exactly one `receiver.send` delivering the payload bytes supplied to
`schedule`, and the entry is then removed.  The fire-once-and-remove part
holds, but the delivered bytes are not the payload: `schedule` never
stores the payload (the `SMsg` struct has no field for it; the `data`
argument is only null-checked), so the entry — and hence every later
delivery — is identical for any two payloads, and the send performed by
`processQueue` passes the address of the entry pointer
(`Sent.entryAddr`), never the supplied bytes (`Sent.payloadBytes`). -/
theorem C1_payload_never_delivered :
    (∀ bs1 bs2 : List Nat, ∀ task size delay nowT hdl : Nat,
     ∀ p ok : Bool,
       schedule task (some bs1) size delay p nowT hdl ok
         = schedule task (some bs2) size delay p nowT hdl ok)
  ∧ schedule 1 (some [171]) 1 100 false 0 7 true = some eC1
  ∧ handleMessage (SchedulerMsg.add eC1) 0 [] = ([eC1], [], 100)
  ∧ handleTimeout 100 [eC1]
      = ([], [⟨1, Sent.entryAddr 7 1⟩], RTOS_TASK_WAIT_FOREVER)
  ∧ (∀ bs : List Nat, Sent.entryAddr 7 1 ≠ Sent.payloadBytes bs) := by
  refine ⟨fun bs1 bs2 task size delay nowT hdl p ok => rfl,
    by decide, by decide, by decide, fun bs h => by cases h⟩

/-! ## C6 -/

/-- One-shot entry with deadline 200 (receiver 1, handle 10). -/
def eC6A : SMsg := ⟨1, 200, 200, false, 4, 10⟩

/-- One-shot entry with deadline 100 (receiver 2, handle 11). -/
def eC6B : SMsg := ⟨2, 100, 100, false, 4, 11⟩

/-- Periodic entry, period 1000, first deadline 100 (receiver 1,
handle 20). -/
def eC6P : SMsg := ⟨1, 1000, 100, true, 4, 20⟩

/-- One-shot entry with deadline 110 (receiver 2, handle 21). -/
def eC6Q : SMsg := ⟨2, 110, 110, false, 4, 21⟩

/-- C6: the walk-from-the-front mechanics the claim describes hold — a due
periodic entry is re-armed to `now + period` and kept, a due one-shot is
removed, and the timeout is recomputed from the list head — but the
"ascending deadline order" part does not: `handleMessage` runs
`processQueue` before re-sorting, and `handleTimeout` never re-sorts.
First scenario: with `eC6A` (deadline 200) pending, adding `eC6B`
(deadline 100) at time 300 fires A before B — descending deadline order.
Second scenario (timeout path): from the sorted list `[eC6P, eC6Q]` at
time 100 the periodic head is re-armed in place to 1100 and the timeout
is set from it to 1000, although `eC6Q` is due 10 time units later; the
re-armed head also blocks `eC6Q` from firing, and no sort happens. -/
theorem C6_fires_out_of_deadline_order :
    handleMessage (SchedulerMsg.add eC6A) 0 [] = ([eC6A], [], 200)
  ∧ handleMessage (SchedulerMsg.add eC6B) 300 [eC6A]
      = ([], [⟨1, Sent.entryAddr 10 4⟩, ⟨2, Sent.entryAddr 11 4⟩],
         RTOS_TASK_WAIT_FOREVER)
  ∧ eC6B.nextTime < eC6A.nextTime
  ∧ handleTimeout 100 [eC6P, eC6Q]
      = ([⟨1, 1000, 1100, true, 4, 20⟩, eC6Q], [⟨1, Sent.entryAddr 20 4⟩], 1000)
  ∧ eC6Q.nextTime - 100 = 10 := by
  refine ⟨by decide, by decide, by decide, by decide, by decide⟩

/-! ## Witness instantiations -/

/-- A writable topic named "t" (byte 116) with type token 5. -/
def tC3 : Topic := ⟨[116], 5, ⟨0, 7⟩, 4, [], some (fun v _ => (true, v)), none⟩

/-- The bus with `tC3` registered. -/
def sC3 : BusState := ⟨[(fnv1a32 [116], tC3)]⟩

theorem C2_witness :
    (t0c2.notify sendAlwaysTrue).1 = t0c2.subscribers.length :=
  (C2_notify_counts_all_subscribers t0c2 sendAlwaysTrue).1

theorem C3_witness :
    MsgBus.requestWrite sC3 (fnv1a32 [116]) 9 3
      = (Result.TYPE_MISMATCH, sC3, []) :=
  (C3_requestWrite_type_checked sC3 (fnv1a32 [116]) 9 3 tC3 rfl).1 (by decide)

/-- A topic named "w" (byte 119) with no callbacks. -/
def tC4 : Topic := ⟨[119], 3, ⟨0, 1⟩, 4, [], none, none⟩

theorem C4_witness :
    MsgBus.registerTopic (⟨[]⟩ : BusState) (some tC4)
      = (Result.OK, ⟨[(fnv1a32 [119], tC4)]⟩, some (fnv1a32 [119]))
  ∧ MsgBus.findTopic (⟨[(fnv1a32 [119], tC4)]⟩ : BusState) (fnv1a32 [119])
      = some tC4 := by
  have h := (C4_registerTopic (⟨[]⟩ : BusState) tC4).2.2 rfl
  exact ⟨h.1, h.2.1⟩

/-- A topic named "p" (byte 112) subscribed by receiver 5 with id 9. -/
def tC7 : Topic := ⟨[112], 1, ⟨0, 9⟩, 4, [⟨5, 9⟩], none, none⟩

theorem C7_witness :
    (((tC7.addSubscriber 3 5).2.notify sendAlwaysTrue).2.2.filter
        (fun ev => ev.recv == 3)).length = 1 :=
  (C7_subscribe_roundtrip tC7 3 5 sendAlwaysTrue (by decide)).2.2.1

/-- A topic named "t1" (bytes 116, 49) with no callbacks. -/
def tC8 : Topic := ⟨[116, 49], 1, ⟨0, 0⟩, 4, [], none, none⟩

theorem C8_witness :
    MsgBus.topicId (⟨[(fnv1a32 [116, 49], tC8)]⟩ : BusState) [116, 49]
      = fnv1a32 [116, 49] :=
  (C8_topicId_is_fnv1a (⟨[]⟩ : BusState) tC8
    (⟨[(fnv1a32 [116, 49], tC8)]⟩ : BusState) (fnv1a32 [116, 49]) rfl).2.1

theorem C9_witness :
    (MsgBus.subscribe (⟨[(fnv1a32 [116, 49], tC8)]⟩ : BusState)
        (fnv1a32 [116, 49]) 4).1 = Result.OK :=
  (C9_bus_subscription_carries_topic_id
    (⟨[(fnv1a32 [116, 49], tC8)]⟩ : BusState) (fnv1a32 [116, 49]) 4 tC8
    sendAlwaysTrue (by intro p hp; simp at hp; rw [hp]; rfl) rfl
    (by decide)).2.1

end Rtos
